import Mathlib

/-!
Verification of the Bain ABF portal's computational components.

The repository is a React/TypeScript front end; its computational content is
three small pure functions, embedded here over exact rationals (`ℚ`):

* `generateCashFlows` — the Deal Analyzer's 60-month cash-flow projector
  (DealAnalyzer component): per month it computes a prepayment, a default,
  a recovery, clamps the updated pool balance at zero, and records the
  balance together with three capped tranche payments.  JavaScript's
  `x.toFixed(d)` display rounding is modelled by `toFixed` (round half up
  to `d` decimal places).
* `calculateWaterfall` — the Waterfall Modeler's collections / default-loss
  split (WaterfallModeler component).
* `filteredDeals` — the Market Tracker's predicate-conjunction filter over
  the hardcoded sample deal list (MarketTracker component).
-/

set_option linter.unusedVariables false

namespace BainPortal

/-- One tranche of the Deal Analyzer's hardcoded deal structure. -/
structure TrancheInfo where
  size : ℚ
  coupon : ℚ
  oc : ℚ
  rating : String

/-- The Deal Analyzer's hardcoded `dealStructure` object. -/
structure DealStructure where
  total : ℚ
  classA : TrancheInfo
  classB : TrancheInfo
  classC : TrancheInfo
  equitySize : ℚ

/-- `dealStructure` from the DealAnalyzer component: $500M pool with three
rated tranches (coupons 2.5 / 4.5 / 8.0) and a $10M equity slice. -/
def dealStructure : DealStructure :=
  { total := 500
    classA := { size := 350, coupon := 5/2, oc := 6/5, rating := "AAA" }
    classB := { size := 100, coupon := 9/2, oc := 11/10, rating := "BBB" }
    classC := { size := 40, coupon := 8, oc := 1, rating := "BB" }
    equitySize := 10 }

/-- `monthlyPrepay` inside the loop: `(balance * (cpr / 100)) / 12`. -/
def monthlyPrepay (cpr balance : ℚ) : ℚ := balance * (cpr / 100) / 12

/-- `monthlyDefault` inside the loop: `(balance * (cdr / 100)) / 12`. -/
def monthlyDefault (cdr balance : ℚ) : ℚ := balance * (cdr / 100) / 12

/-- `recovery` inside the loop: `monthlyDefault * (severity / 100)`. -/
def recoveryAmt (cdr severity balance : ℚ) : ℚ :=
  monthlyDefault cdr balance * (severity / 100)

/-- One balance update of the loop:
`balance = Math.max(0, balance - monthlyPrepay - monthlyDefault + recovery)`. -/
def cfStep (cpr cdr severity balance : ℚ) : ℚ :=
  max 0 (balance - monthlyPrepay cpr balance - monthlyDefault cdr balance
    + recoveryAmt cdr severity balance)

/-- The pool balance after `n` monthly updates, starting from
`dealStructure.total` (the source's mutable `balance` variable). -/
def balanceAfter (cpr cdr severity : ℚ) : ℕ → ℚ
  | 0 => dealStructure.total
  | n + 1 => cfStep cpr cdr severity (balanceAfter cpr cdr severity n)

/-- `classAPayment = Math.min(size * (coupon / 100 / 12), balance * 0.3)`. -/
def classAPayment (balance : ℚ) : ℚ :=
  min (dealStructure.classA.size * (dealStructure.classA.coupon / 100 / 12))
    (balance * (3/10))

/-- `classBPayment = Math.min(size * (coupon / 100 / 12), balance * 0.2)`. -/
def classBPayment (balance : ℚ) : ℚ :=
  min (dealStructure.classB.size * (dealStructure.classB.coupon / 100 / 12))
    (balance * (2/10))

/-- `classCPayment = Math.min(size * (coupon / 100 / 12), balance * 0.1)`. -/
def classCPayment (balance : ℚ) : ℚ :=
  min (dealStructure.classC.size * (dealStructure.classC.coupon / 100 / 12))
    (balance * (1/10))

/-- JavaScript's `parseFloat(x.toFixed(digits))`, modelled exactly on ℚ as
round half up to `digits` decimal places. -/
def toFixed (digits : ℕ) (x : ℚ) : ℚ :=
  ((round (x * 10 ^ digits) : ℤ) : ℚ) / 10 ^ digits

/-- One record pushed onto `data` in `generateCashFlows`. -/
structure CFRow where
  month : ℕ
  balance : ℚ
  classA : ℚ
  classB : ℚ
  classC : ℚ

/-- The record pushed in month `i` (the source pushes the rounded
post-update balance and the rounded capped payments). -/
def cfRow (cpr cdr severity : ℚ) (i : ℕ) : CFRow :=
  { month := i
    balance := toFixed 1 (balanceAfter cpr cdr severity i)
    classA := toFixed 2 (classAPayment (balanceAfter cpr cdr severity i))
    classB := toFixed 2 (classBPayment (balanceAfter cpr cdr severity i))
    classC := toFixed 2 (classCPayment (balanceAfter cpr cdr severity i)) }

/-- `generateCashFlows`: the loop `for (let i = 1; i <= 60; i++)`, emitting
one record per month, in order. -/
def generateCashFlows (cpr cdr severity : ℚ) : List CFRow :=
  (List.range 60).map (fun k => cfRow cpr cdr severity (k + 1))

/-- `generateCashFlows` as seen inside the component's environment, which
also offers an ambient random stream (`Math.random`, consumed by the
SpreadMonitor's `spreadData` but never by `generateCashFlows`): the
projector receives the stream and never reads it, exactly as in the source. -/
def generateCashFlowsWithRand (_rand : ℕ → ℚ) (cpr cdr severity : ℚ) :
    List CFRow :=
  generateCashFlows cpr cdr severity

/-- Per the spec's words: "monthly prepayment = balance * (cpr/100)/12". -/
def spec_monthlyPrepay (balance cpr : ℚ) : ℚ := balance * (cpr / 100) / 12

/-- Per the spec's words: "monthly default = balance * (cdr/100)/12". -/
def spec_monthlyDefault (balance cdr : ℚ) : ℚ := balance * (cdr / 100) / 12

/-- Per the spec's words: "recovery = monthlyDefault * (severity/100)". -/
def spec_recovery (balance cdr severity : ℚ) : ℚ :=
  spec_monthlyDefault balance cdr * (severity / 100)

/-- Per the spec's words:
"balance = max(0, balance - monthlyPrepay - monthlyDefault + recovery)". -/
def spec_nextBalance (balance cpr cdr severity : ℚ) : ℚ :=
  max 0 (balance - spec_monthlyPrepay balance cpr - spec_monthlyDefault balance cdr
    + spec_recovery balance cdr severity)

/-- Per the spec's words: "tranche payment =
min(trancheSize * coupon/100/12, updatedBalance * fixedFraction)". -/
def spec_tranchePayment (trancheSize coupon fixedFraction updatedBalance : ℚ) : ℚ :=
  min (trancheSize * coupon / 100 / 12) (updatedBalance * fixedFraction)

/-- Result of the Waterfall Modeler's `calculateWaterfall`. -/
structure WaterfallResult where
  collections : ℚ
  defaultLoss : ℚ
  availableForPayment : ℚ

/-- `calculateWaterfall` from the WaterfallModeler component:
`collections = balance*(1 - rate/100) + balance*rate/100*0.6`,
`defaultLoss = balance*rate/100*0.4`, `availableForPayment = collections`. -/
def calculateWaterfall (collateralBalance defaultRate : ℚ) : WaterfallResult :=
  let collections := collateralBalance * (1 - defaultRate / 100)
    + collateralBalance * defaultRate / 100 * (6/10)
  { collections := collections
    defaultLoss := collateralBalance * defaultRate / 100 * (4/10)
    availableForPayment := collections }

/-- One record of the Market Tracker's hardcoded `deals` array. -/
structure Deal where
  id : ℕ
  name : String
  issuer : String
  collateral : String
  size : ℤ
  pricingDate : String
  ratings : List String
  spreads : List ℤ
  bookrunner : String
  format : String

/-- The `deals` sample array from the MarketTracker component. -/
def deals : List Deal :=
  [ { id := 1, name := "ACMAT 2025-4", issuer := "Ally Financial"
      collateral := "Auto", size := 2500, pricingDate := "2025-01-15"
      ratings := ["AAA", "AA", "BBB", "BB"], spreads := [215, 280, 385, 520]
      bookrunner := "Goldman Sachs", format := "144A" }
  , { id := 2, name := "EXETER 2025-1", issuer := "Exeter Finance"
      collateral := "Auto", size := 1800, pricingDate := "2025-01-14"
      ratings := ["AAA", "AA", "BBB"], spreads := [220, 290, 395]
      bookrunner := "Morgan Stanley", format := "144A" }
  , { id := 3, name := "CLOS 2025-1", issuer := "BDC CLO Manager"
      collateral := "CLO", size := 3200, pricingDate := "2025-01-10"
      ratings := ["AAA", "AA", "BBB", "BB"], spreads := [245, 310, 450, 650]
      bookrunner := "Barclays", format := "Reg S" }
  , { id := 4, name := "EQUIP 2025-2", issuer := "Wells Fargo"
      collateral := "Equipment", size := 950, pricingDate := "2025-01-08"
      ratings := ["AAA", "BBB"], spreads := [200, 320]
      bookrunner := "JPMorgan", format := "144A" }
  , { id := 5, name := "CSAIL 2025-1", issuer := "Capital One"
      collateral := "Consumer", size := 2100, pricingDate := "2025-01-06"
      ratings := ["AAA", "AA", "BBB", "B"], spreads := [235, 300, 420, 580]
      bookrunner := "Bank of America", format := "144A" }
  , { id := 6, name := "EXOTICA 2025-1", issuer := "Specialty Finance"
      collateral := "Esoteric", size := 450, pricingDate := "2025-01-02"
      ratings := ["AAA", "BBB"], spreads := [280, 480]
      bookrunner := "Citi", format := "Private" } ]

/-- The filter wildcard value of both select controls. -/
def allStr : String := "all"

/-- The collateral type of the first two sample deals. -/
def autoStr : String := "Auto"

/-- `filteredDeals`: keep a deal iff
`(collateralFilter == "all" || deal.collateral === collateralFilter) &&
(ratingFilter == "all" || deal.ratings.includes(ratingFilter)) &&
deal.spreads.some(s => s >= spreadRange[0] && s <= spreadRange[1])`. -/
def filteredDeals (collateralFilter ratingFilter : String)
    (spreadLo spreadHi : ℤ) : List Deal :=
  deals.filter (fun deal =>
    (collateralFilter == allStr || deal.collateral == collateralFilter)
    && (ratingFilter == allStr || deal.ratings.contains ratingFilter)
    && deal.spreads.any (fun s => decide (spreadLo ≤ s) && decide (s ≤ spreadHi)))

/-! ### Helper lemmas -/

/-- Every balance the projector ever holds is nonnegative: the initial pool
is 500 and each update is clamped by `max 0`. -/
lemma balanceAfter_nonneg (cpr cdr severity : ℚ) :
    ∀ n, 0 ≤ balanceAfter cpr cdr severity n := by
  intro n
  cases n with
  | zero => norm_num [balanceAfter, dealStructure]
  | succ m => exact le_max_left 0 _

/-- With `severity ≤ 100` the recovery never exceeds the default, so a
single balance update can only shrink a nonnegative balance. -/
lemma cfStep_le_self (cpr cdr severity balance : ℚ) (hb : 0 ≤ balance)
    (hcpr : 0 ≤ cpr) (hcdr : 0 ≤ cdr) (_hs0 : 0 ≤ severity)
    (hs1 : severity ≤ 100) :
    cfStep cpr cdr severity balance ≤ balance := by
  simp only [cfStep, monthlyPrepay, monthlyDefault, recoveryAmt]
  have hp : 0 ≤ balance * (cpr / 100) / 12 := by positivity
  have hd : 0 ≤ balance * (cdr / 100) / 12 := by positivity
  have hs : severity / 100 ≤ 1 := by linarith
  have hr : balance * (cdr / 100) / 12 * (severity / 100)
      ≤ balance * (cdr / 100) / 12 := by
    calc balance * (cdr / 100) / 12 * (severity / 100)
        ≤ balance * (cdr / 100) / 12 * 1 :=
          mul_le_mul_of_nonneg_left hs hd
      _ = balance * (cdr / 100) / 12 := mul_one _
  exact max_le hb (by linarith)

/-- Rounding a nonnegative rational to a fixed number of decimal places
yields a nonnegative rational. -/
lemma toFixed_nonneg (digits : ℕ) (x : ℚ) (hx : 0 ≤ x) :
    0 ≤ toFixed digits x := by
  unfold toFixed
  have h1 : (0 : ℤ) ≤ round (x * 10 ^ digits) := by
    rw [round_eq]
    exact Int.floor_nonneg.mpr (by positivity)
  exact div_nonneg (by exact_mod_cast h1) (by positivity)

/-- With `cpr = 0` and `cdr = 0` every balance update is the identity on
the (nonnegative) pool balance. -/
lemma balanceAfter_zero_rates (severity : ℚ) :
    ∀ n, balanceAfter 0 0 severity n = 500 := by
  intro n
  induction n with
  | zero => norm_num [balanceAfter, dealStructure]
  | succ m ih =>
      simp only [balanceAfter, ih]
      norm_num [cfStep, monthlyPrepay, monthlyDefault, recoveryAmt]

/-! ### C10 — Waterfall Modeler conservation identity -/

/-- C10: for every collateral balance and default rate,
`collections + defaultLoss = collateralBalance` (collections keep 60% of
the defaulted slice, the loss is the remaining 40%), and
`availableForPayment` equals `collections` exactly. -/
theorem calculateWaterfall_conservation (collateralBalance defaultRate : ℚ) :
    (calculateWaterfall collateralBalance defaultRate).collections
        + (calculateWaterfall collateralBalance defaultRate).defaultLoss
        = collateralBalance
    ∧ (calculateWaterfall collateralBalance defaultRate).availableForPayment
        = (calculateWaterfall collateralBalance defaultRate).collections := by
  constructor
  · simp only [calculateWaterfall]
    ring
  · rfl

/-! ### C9 — determinism of the projector -/

/-- C9: the projector is a deterministic function of `cpr`, `cdr` and
`severity`: it never reads the ambient random stream (unlike the
SpreadMonitor's `spreadData`), so two calls with identical inputs — even
under different random streams — yield identical output sequences. -/
theorem generateCashFlows_deterministic (r1 r2 : ℕ → ℚ)
    (cpr cdr severity : ℚ) :
    generateCashFlowsWithRand r1 cpr cdr severity
      = generateCashFlowsWithRand r2 cpr cdr severity := rfl

/-! ### C1 — per-period formulas of the projector -/

/-- C1: for every `cpr`, `cdr`, `severity` within the documented ranges and
every period, the projector updates the balance by
`max(0, balance - balance*(cpr/100)/12 - balance*(cdr/100)/12 +
(balance*(cdr/100)/12)*(severity/100))` and then computes each tranche
payment as `min(trancheSize * coupon/100/12, updatedBalance * fixedFraction)`
with fraction 0.3 / 0.2 / 0.1 for Class A / B / C, exactly as the spec's
formulas state. -/
theorem generateCashFlows_period_formulas (cpr cdr severity : ℚ) (i : ℕ)
    (hcpr0 : 0 ≤ cpr) (hcpr1 : cpr ≤ 100) (hcdr0 : 0 ≤ cdr) (hcdr1 : cdr ≤ 100)
    (hs0 : 0 ≤ severity) (hs1 : severity ≤ 100) :
    balanceAfter cpr cdr severity (i + 1)
      = spec_nextBalance (balanceAfter cpr cdr severity i) cpr cdr severity
    ∧ classAPayment (balanceAfter cpr cdr severity (i + 1))
        = spec_tranchePayment 350 (5/2) (3/10)
            (balanceAfter cpr cdr severity (i + 1))
    ∧ classBPayment (balanceAfter cpr cdr severity (i + 1))
        = spec_tranchePayment 100 (9/2) (2/10)
            (balanceAfter cpr cdr severity (i + 1))
    ∧ classCPayment (balanceAfter cpr cdr severity (i + 1))
        = spec_tranchePayment 40 8 (1/10)
            (balanceAfter cpr cdr severity (i + 1)) := by
  refine ⟨rfl, ?_, ?_, ?_⟩ <;>
    · simp only [classAPayment, classBPayment, classCPayment, dealStructure,
        spec_tranchePayment]
      congr 1
      ring

/-- Witness for C1 at `cpr = 20`, `cdr = 5`, `severity = 60`, period 1. -/
theorem generateCashFlows_period_formulas_witness :
    balanceAfter 20 5 60 (0 + 1) = spec_nextBalance (balanceAfter 20 5 60 0) 20 5 60
    ∧ classAPayment (balanceAfter 20 5 60 (0 + 1))
        = spec_tranchePayment 350 (5/2) (3/10) (balanceAfter 20 5 60 (0 + 1))
    ∧ classBPayment (balanceAfter 20 5 60 (0 + 1))
        = spec_tranchePayment 100 (9/2) (2/10) (balanceAfter 20 5 60 (0 + 1))
    ∧ classCPayment (balanceAfter 20 5 60 (0 + 1))
        = spec_tranchePayment 40 8 (1/10) (balanceAfter 20 5 60 (0 + 1)) :=
  generateCashFlows_period_formulas 20 5 60 0 (by norm_num) (by norm_num)
    (by norm_num) (by norm_num) (by norm_num) (by norm_num)

/-! ### C2 — full 60-month horizon, never stops early -/

/-- C2: for every `cpr`, `cdr`, `severity` within the documented ranges the
projector emits exactly 60 records, one per month index 1..60; it never
stops early when the balance reaches 0. -/
theorem generateCashFlows_full_horizon (cpr cdr severity : ℚ)
    (hcpr0 : 0 ≤ cpr) (hcpr1 : cpr ≤ 100) (hcdr0 : 0 ≤ cdr) (hcdr1 : cdr ≤ 100)
    (hs0 : 0 ≤ severity) (hs1 : severity ≤ 100) :
    (generateCashFlows cpr cdr severity).length = 60
    ∧ (generateCashFlows cpr cdr severity).map CFRow.month
        = List.range' 1 60 := by
  constructor
  · simp [generateCashFlows]
  · simp only [generateCashFlows, List.map_map]
    have h : (CFRow.month ∘ fun k => cfRow cpr cdr severity (k + 1))
        = fun k => k + 1 := rfl
    rw [h]
    decide

/-- Witness for C2 at `cpr = 20`, `cdr = 5`, `severity = 60`. -/
theorem generateCashFlows_full_horizon_witness :
    (generateCashFlows 20 5 60).length = 60
    ∧ (generateCashFlows 20 5 60).map CFRow.month = List.range' 1 60 :=
  generateCashFlows_full_horizon 20 5 60 (by norm_num) (by norm_num)
    (by norm_num) (by norm_num) (by norm_num) (by norm_num)

/-! ### C3 — recorded balances are never negative -/

/-- C3: for every `cpr`, `cdr`, `severity` within the documented ranges,
every emitted record's pool balance is `≥ 0`: the `max(0, …)` clamp keeps
the running balance nonnegative and display rounding preserves that. -/
theorem generateCashFlows_balance_nonneg (cpr cdr severity : ℚ)
    (hcpr0 : 0 ≤ cpr) (hcpr1 : cpr ≤ 100) (hcdr0 : 0 ≤ cdr) (hcdr1 : cdr ≤ 100)
    (hs0 : 0 ≤ severity) (hs1 : severity ≤ 100)
    (row : CFRow) (hrow : row ∈ generateCashFlows cpr cdr severity) :
    0 ≤ row.balance := by
  simp only [generateCashFlows, List.mem_map, List.mem_range] at hrow
  obtain ⟨k, hk, rfl⟩ := hrow
  simp only [cfRow]
  exact toFixed_nonneg 1 _ (balanceAfter_nonneg cpr cdr severity (k + 1))

/-- Witness for C3: the month-1 record at `cpr=20, cdr=5, severity=60`. -/
theorem generateCashFlows_balance_nonneg_witness :
    cfRow 20 5 60 1 ∈ generateCashFlows 20 5 60
    ∧ 0 ≤ (cfRow 20 5 60 1).balance := by
  have hmem : cfRow 20 5 60 1 ∈ generateCashFlows 20 5 60 :=
    List.mem_map.mpr ⟨0, by simp, rfl⟩
  exact ⟨hmem, generateCashFlows_balance_nonneg 20 5 60 (by norm_num)
    (by norm_num) (by norm_num) (by norm_num) (by norm_num) (by norm_num)
    (cfRow 20 5 60 1) hmem⟩

/-! ### C4 — can the balance increase within a period? -/

/-- C4 counterexample: the claim is false — with `severity ∈ [0,100]` the
recovery `default * severity/100` never exceeds the default, so no input
within the documented ranges makes the pool balance increase within any
period. -/
theorem no_balance_increase_in_range :
    ¬ ∃ (cpr cdr severity : ℚ) (i : ℕ),
        0 ≤ cpr ∧ cpr ≤ 100 ∧ 0 ≤ cdr ∧ cdr ≤ 100
        ∧ 0 ≤ severity ∧ severity ≤ 100
        ∧ balanceAfter cpr cdr severity i
            < balanceAfter cpr cdr severity (i + 1) := by
  rintro ⟨cpr, cdr, severity, i, h1, h2, h3, h4, h5, h6, hlt⟩
  have hle : balanceAfter cpr cdr severity (i + 1)
      ≤ balanceAfter cpr cdr severity i :=
    cfStep_le_self cpr cdr severity _
      (balanceAfter_nonneg cpr cdr severity i) h1 h3 h5 h6
  exact absurd hlt (not_lt.mpr hle)

/-- C4 amended: within the documented ranges the balance sequence is
monotonically non-increasing in every period, not merely in expectation:
an in-period increase would need `severity > 100`. -/
theorem balanceAfter_nonincreasing (cpr cdr severity : ℚ) (i : ℕ)
    (hcpr : 0 ≤ cpr) (hcdr : 0 ≤ cdr) (hs0 : 0 ≤ severity)
    (hs1 : severity ≤ 100) :
    balanceAfter cpr cdr severity (i + 1) ≤ balanceAfter cpr cdr severity i :=
  cfStep_le_self cpr cdr severity _
    (balanceAfter_nonneg cpr cdr severity i) hcpr hcdr hs0 hs1

/-- Witness for the amended C4 at `cpr=0, cdr=5, severity=100`, period 1. -/
theorem balanceAfter_nonincreasing_witness :
    balanceAfter 0 5 100 (0 + 1) ≤ balanceAfter 0 5 100 0 :=
  balanceAfter_nonincreasing 0 5 100 0 (by norm_num) (by norm_num)
    (by norm_num) (by norm_num)

/-! ### C5 — concrete first-period scenario -/

/-- C5: with the pool at its initial 500 and `cpr=20, cdr=5, severity=60`,
month 1 computes `prepay = 25/3 ≈ 8.333`, `default = 25/12 ≈ 2.083`,
`recovery = 1.25` exactly, and ends with balance `2945/6 ≈ 490.833`, each
matching the spec's figure to three decimal places. -/
theorem first_period_concrete_scenario :
    |monthlyPrepay 20 dealStructure.total - 8333/1000| ≤ 1/2000
    ∧ |monthlyDefault 5 dealStructure.total - 2083/1000| ≤ 1/2000
    ∧ recoveryAmt 5 60 dealStructure.total = 5/4
    ∧ |balanceAfter 20 5 60 1 - 490833/1000| ≤ 1/2000 := by
  refine ⟨?_, ?_, ?_, ?_⟩ <;>
    norm_num [monthlyPrepay, monthlyDefault, recoveryAmt, balanceAfter,
      cfStep, dealStructure, abs_le]

/-! ### C6 — zero rates leave the balance constant -/

/-- C6: with `cpr = 0` and `cdr = 0`, for every severity in its documented
range, every emitted record's balance equals the initial 500: tranche
payments never feed back into the modeled balance, which moves only through
prepay, default and recovery — all zero here. -/
theorem zero_rates_constant_balance (severity : ℚ)
    (hs0 : 0 ≤ severity) (hs1 : severity ≤ 100)
    (row : CFRow) (hrow : row ∈ generateCashFlows 0 0 severity) :
    row.balance = 500 := by
  simp only [generateCashFlows, List.mem_map, List.mem_range] at hrow
  obtain ⟨k, hk, rfl⟩ := hrow
  show toFixed 1 (balanceAfter 0 0 severity (k + 1)) = 500
  rw [balanceAfter_zero_rates]
  unfold toFixed
  rw [show ((500 : ℚ) * 10 ^ 1) = ((5000 : ℤ) : ℚ) by norm_num, round_intCast]
  norm_num

/-- Witness for C6: the month-1 record at `severity = 60`. -/
theorem zero_rates_constant_balance_witness :
    cfRow 0 0 60 1 ∈ generateCashFlows 0 0 60
    ∧ (cfRow 0 0 60 1).balance = 500 := by
  have hmem : cfRow 0 0 60 1 ∈ generateCashFlows 0 0 60 :=
    List.mem_map.mpr ⟨0, by simp, rfl⟩
  exact ⟨hmem, zero_rates_constant_balance 60 (by norm_num) (by norm_num)
    (cfRow 0 0 60 1) hmem⟩

/-! ### C7 — failure modes and input validation -/

/-- C7 counterexample: the claim is false — `generateCashFlows` performs no
input validation at all.  Called with `cpr = cdr = severity = 200`, all far
outside the documented `[0,100]` ranges, it does not reject the input: it
emits the full 60-record projection like any other call. -/
theorem out_of_range_input_not_rejected :
    (generateCashFlows 200 200 200).length = 60 := by
  simp [generateCashFlows]

/-- C7 amended: the projector has no failure modes and no input
validation: it is a total function that emits the full 60-record
projection for every input, in range or not (range enforcement lives only
in the UI slider bounds, and the initial balance is hardcoded to 500, so a
non-positive balance cannot even be supplied). -/
theorem generateCashFlows_total (cpr cdr severity : ℚ) :
    (generateCashFlows cpr cdr severity).length = 60 := by
  simp [generateCashFlows]

/-! ### C8 — Market Tracker collateral filtering -/

/-- C8: for any collateral type `t` present in the sample deals, filtering
with the rating filter at the wildcard and any spread range that overlaps
some spread of every deal returns only deals whose collateral equals `t`;
and filtering by any collateral type absent from the data returns the empty
list.  (The overlap hypothesis scopes the claim; the collateral conclusion
holds independently of it.) -/
theorem filteredDeals_collateral (t : String) (spreadLo spreadHi : ℤ)
    (hpresent : t ∈ deals.map Deal.collateral)
    (hoverlap : ∀ d ∈ deals, ∃ s ∈ d.spreads, spreadLo ≤ s ∧ s ≤ spreadHi) :
    (∀ d ∈ filteredDeals t allStr spreadLo spreadHi, d.collateral = t)
    ∧ ∀ t2 : String, t2 ∉ deals.map Deal.collateral → t2 ≠ allStr →
        filteredDeals t2 allStr spreadLo spreadHi = [] := by
  constructor
  · intro d hd
    have hall : allStr ∉ deals.map Deal.collateral := by decide
    have ht : t ≠ allStr := fun h => hall (h ▸ hpresent)
    simp only [filteredDeals, List.mem_filter] at hd
    obtain ⟨-, hpred⟩ := hd
    simp only [Bool.and_eq_true, Bool.or_eq_true, beq_iff_eq] at hpred
    rcases hpred.1 with h | h
    · exact absurd h ht
    · exact h
  · intro t2 habs hne
    refine List.filter_eq_nil_iff.mpr ?_
    intro d hd hpred
    simp only [Bool.and_eq_true, Bool.or_eq_true, beq_iff_eq] at hpred
    rcases hpred.1 with h | h
    · exact hne h
    · exact habs (h ▸ List.mem_map_of_mem Deal.collateral hd)

/-- Witness for C8 at `t = "Auto"` with spread range `[50, 500]`, which
overlaps a spread of every sample deal. -/
theorem filteredDeals_collateral_witness :
    autoStr ∈ deals.map Deal.collateral
    ∧ (∀ d ∈ deals, ∃ s ∈ d.spreads, 50 ≤ s ∧ s ≤ 500)
    ∧ ((∀ d ∈ filteredDeals autoStr allStr 50 500, d.collateral = autoStr)
       ∧ ∀ t2 : String, t2 ∉ deals.map Deal.collateral → t2 ≠ allStr →
           filteredDeals t2 allStr 50 500 = []) :=
  ⟨by decide, by decide,
    filteredDeals_collateral autoStr 50 500 (by decide) (by decide)⟩

end BainPortal
